import Mathlib

/-!
A verification development for the course-catalog service: the read-through
cache policy, cache-key scheme, write-triggered invalidation, bulk insert with
partial success, and input validation.

The embedding follows the TypeScript sources:
* `src/lib/course-service.ts` — `CourseService` (search, get-by-id, update,
  delete, bulk insert, stats, cache invalidation),
* `src/lib/redis.ts` — `RedisService` (best-effort cache gateway),
* `src/lib/validation.ts` — `CourseCreateSchema` (zod),
* `src/lib/csv-parser.ts` — `validateCourseData`,
* `src/app/api/courses/[id]/route.ts` — the PUT/DELETE handlers' inline
  invalidation,
* `src/app/api/courses/upload/route.ts` — the GET course-listing handler.

The mongoose `Course` model (`src/unnamed/part_003`) declares the unique
index on the business key `course_id` and the text index on title and
description; the MongoDB engine itself is external, so the store is modelled
as a list of course records in which `course_id` is unique, and the mongo
operations used by the service (`findOne`, `findOneAndUpdate`,
`findOneAndDelete`, `insertMany { ordered: false }`, `countDocuments`) are
given their documented first-match / partial-success semantics.  JSON
serialization is modelled by a
typed `Payload` for cache values (`JSON.parse ∘ JSON.stringify` is the
identity on the data in play) while cache *keys*, which the code builds with
`JSON.stringify` of a field-insertion-ordered options object, are modelled as
concrete strings so that key (in)equality is faithful.
-/

/-- Skill levels, the enumeration of `skill_level` in the course schema. -/
inductive SkillLevel where
  | beginner
  | intermediate
  | advanced
deriving DecidableEq, Repr

/-- The string form used in documents and query descriptors. -/
def SkillLevel.toStr : SkillLevel → String
  | .beginner => "beginner"
  | .intermediate => "intermediate"
  | .advanced => "advanced"

/-- The course record of `ICourseData` in the mongoose `Course` model
(`src/unnamed/part_003`).  `course_id` is the business key, unique by the
schema's index; `price` is a free-form string; `rating` is a number in
`[0,5]`, modelled as `ℚ`.  The `createdAt`/`updatedAt` timestamps are
omitted: no claim mentions them. -/
structure Course where
  course_id : String
  title : String
  description : String
  category : String
  instructor : String
  duration : String
  price : String
  rating : ℚ
  skill_level : SkillLevel
deriving DecidableEq, Repr

/-- `Partial<ICourse>` as passed to `updateCourse(courseId, updateData)`:
every data field of the course record is optional, `course_id` included —
the schema (`src/unnamed/part_003`) does not mark the business key immutable
and `CourseUpdateSchema = CourseCreateSchema.partial()` accepts it, so an
update document may rekey the record. -/
structure CourseUpdate where
  course_id : Option String := none
  title : Option String := none
  description : Option String := none
  category : Option String := none
  instructor : Option String := none
  duration : Option String := none
  price : Option String := none
  rating : Option ℚ := none
  skill_level : Option SkillLevel := none
deriving DecidableEq, Repr

/-- Effect of `findOneAndUpdate` applying an update document (a `$set`) to a
matched course. -/
def applyUpdate (u : CourseUpdate) (c : Course) : Course :=
  { c with
    course_id := u.course_id.getD c.course_id
    title := u.title.getD c.title
    description := u.description.getD c.description
    category := u.category.getD c.category
    instructor := u.instructor.getD c.instructor
    duration := u.duration.getD c.duration
    price := u.price.getD c.price
    rating := u.rating.getD c.rating
    skill_level := u.skill_level.getD c.skill_level }

/-! ### String helpers (kernel-friendly replacements for `String` primitives) -/

/-- `charsLead p s` holds when the character list `p` leads (is an initial
segment of) `s`. -/
def charsLead : List Char → List Char → Bool
  | [], _ => true
  | _ :: _, [] => false
  | a :: as, b :: bs => a == b && charsLead as bs

/-- `strStarts p s`: the string `s` starts with `p`. -/
def strStarts (p s : String) : Bool :=
  charsLead p.data s.data

/-- Strip a single trailing `*` from a pattern, if present. -/
def stripStar : List Char → Option (List Char)
  | [] => none
  | [c] => if c == '*' then some [] else none
  | c :: cs => (stripStar cs).map (c :: ·)

/-- Redis glob matching restricted to the shapes the service uses: a pattern
`p*` matches every key starting with `p`; a pattern without `*` matches only
itself.  The only patterns in the codebase are `search:*` and `courses:*`. -/
def patMatch (pat key : String) : Bool :=
  match stripStar pat.data with
  | some p => charsLead p key.data
  | none => pat == key

/-! ### Search descriptors as ordered JS objects, and `JSON.stringify` keys

`searchCourses` derives its cache key from `JSON.stringify(options)`.
`JSON.stringify` serializes an object's own enumerable properties in
insertion order, so the descriptor is embedded as an ordered association
list of fields, not as a record. -/

/-- A JS value occurring in a search/listing descriptor: a string or a
number.  JS numbers are modelled as `ℚ` (every value in play is exactly
representable). -/
inductive OVal where
  | s (v : String)
  | n (v : ℚ)
deriving DecidableEq, Repr

/-- An insertion-ordered JS object: the field list in insertion order. -/
abbrev JSObj := List (String × OVal)

/-- Rendering of a JS number for `JSON.stringify`.  Integers render as their
decimal numeral; for a non-integer the rendering is a stand-in (`num/den`)
that is injective, which is all key comparison needs — every descriptor field
in the claims is an integer or a string. -/
def numStr (q : ℚ) : String :=
  if q.den = 1 then toString q.num else toString q.num ++ "/" ++ toString q.den

/-- Rendering of a field value.  String values in scope contain no JSON
metacharacters, so no escaping is modelled. -/
def ovalStr : OVal → String
  | .s v => "\"" ++ v ++ "\""
  | .n v => numStr v

/-- One `"key":value` item of a serialized object. -/
def fieldStr (kv : String × OVal) : String :=
  "\"" ++ kv.1 ++ "\":" ++ ovalStr kv.2

/-- Comma-joined rendering of the fields. -/
def fieldsStr : List (String × OVal) → String
  | [] => ""
  | [kv] => fieldStr kv
  | kv :: rest => fieldStr kv ++ "," ++ fieldsStr rest

/-- `JSON.stringify` of an ordered JS object: fields in insertion order. -/
def jsonStringify (o : JSObj) : String :=
  "\x7b" ++ fieldsStr o ++ "\x7d"

/-- Property lookup on a JS object (first binding wins). -/
def objGet (o : JSObj) (k : String) : Option OVal :=
  (o.find? (fun kv => kv.1 == k)).map (fun kv => kv.2)

/-- `const { query = ud } = options` for a string-valued field: the default
applies when the field is absent.  A present non-string value never occurs in
a well-formed descriptor and is mapped to the default. -/
def optStr (o : JSObj) (k : String) (dflt : String) : String :=
  match objGet o k with
  | some (.s v) => v
  | _ => dflt

/-- Optional string field without a default (`category`, `skillLevel`). -/
def optStrOpt (o : JSObj) (k : String) : Option String :=
  match objGet o k with
  | some (.s v) => some v
  | _ => none

/-- Optional numeric field without a default (`minRating`). -/
def optNumOpt (o : JSObj) (k : String) : Option ℚ :=
  match objGet o k with
  | some (.n v) => some v
  | _ => none

/-- Numeric field with a default (`page = 1`, `limit = 20`). -/
def optNum (o : JSObj) (k : String) (dflt : ℚ) : ℚ :=
  match objGet o k with
  | some (.n v) => v
  | _ => dflt

/-- The semantic content of a search descriptor: the destructured
`(query, category, skillLevel, minRating, page, limit)` with the service's
defaults.  Two descriptors are logically identical exactly when their
semantics coincide. -/
def descSem (o : JSObj) :
    String × Option String × Option String × Option ℚ × ℚ × ℚ :=
  (optStr o "query" "", optStrOpt o "category", optStrOpt o "skillLevel",
   optNumOpt o "minRating", optNum o "page" 1, optNum o "limit" 20)

/-! ### Cache entries and payloads -/

/-- Pagination metadata of a search/listing result. -/
structure Pagination where
  currentPage : ℚ
  totalPages : ℤ
  hasNext : Bool
  hasPrev : Bool
deriving DecidableEq, Repr

/-- `CourseSearchResult` of `course-service.ts`. -/
structure SearchResultData where
  courses : List Course
  totalCount : ℤ
  pagination : Pagination
  cached : Bool
deriving DecidableEq, Repr

/-- The stats object built by `getCourseStats`. -/
structure StatsData where
  totalCourses : ℤ
  categoriesCount : List (String × ℤ)
  skillLevelCount : List (String × ℤ)
  averageRating : ℚ
deriving DecidableEq, Repr

/-- The listing result of the upload route's GET handler. -/
structure ListResultData where
  courses : List Course
  totalCourses : ℤ
  currentPage : ℚ
  totalPages : ℤ
deriving DecidableEq, Repr

/-- A deserialized cache value.  The code stores `JSON.stringify` of the
result object and parses it on a hit; serialization round-trips exactly on
this data, so the cache is modelled as holding the typed value. -/
inductive Payload where
  | course (c : Course)
  | search (r : SearchResultData)
  | stats (v : StatsData)
  | listing (l : ListResultData)
deriving DecidableEq, Repr

/-- The volatile cache: key, payload, and the TTL (seconds) the entry was
written with. -/
abbrev Cache := List (String × Payload × Nat)

/-- Redis `GET`. -/
def cacheFind (c : Cache) (k : String) : Option Payload :=
  (c.find? (fun e => e.1 == k)).map (fun e => e.2.1)

/-- The TTL an entry was stored with (for stating the TTL-tier claims). -/
def cacheTtl (c : Cache) (k : String) : Option Nat :=
  (c.find? (fun e => e.1 == k)).map (fun e => e.2.2)

/-- Redis `SETEX`: replace any entry under the key. -/
def cacheSet (c : Cache) (k : String) (v : Payload) (ttl : Nat) : Cache :=
  (k, v, ttl) :: c.filter (fun e => !(e.1 == k))

/-- Redis `DEL`. -/
def cacheDel (c : Cache) (k : String) : Cache :=
  c.filter (fun e => !(e.1 == k))

/-- `KEYS pattern` followed by `DEL keys` (the `flushPattern` body). -/
def cacheFlush (c : Cache) (pat : String) : Cache :=
  c.filter (fun e => !patMatch pat e.1)

/-! ### The persistent store

The document collection holding course records.  The `CourseSchema`
(`src/unnamed/part_003`) puts a unique index on `course_id`; the MongoDB
engine is the external collaborator, its `findOne` / `findOneAndUpdate` /
`findOneAndDelete` acting on the first matching document. -/

/-- The store: the course collection. -/
abbrev Store := List Course

/-- `Course.findOne({ course_id })`. -/
def findOne (st : Store) (id : String) : Option Course :=
  st.find? (fun c => c.course_id == id)

/-- Does a record with the business key already exist (the unique-index
check of an insert)? -/
def storeHasId (st : Store) (id : String) : Bool :=
  st.any (fun c => c.course_id == id)

/-- `Course.findOneAndUpdate({ course_id }, upd, { new: true })`: update the
first matching document in place and return the updated document. -/
def updStore (st : Store) (id : String) (u : CourseUpdate) :
    Option Course × Store :=
  match st with
  | [] => (none, [])
  | c :: cs =>
    if c.course_id == id then
      (some (applyUpdate u c), applyUpdate u c :: cs)
    else
      let r := updStore cs id u
      (r.1, c :: r.2)

/-- `Course.findOneAndDelete({ course_id })`: remove the first matching
document and return it. -/
def delStore (st : Store) (id : String) : Option Course × Store :=
  match st with
  | [] => (none, [])
  | c :: cs =>
    if c.course_id == id then
      (some c, cs)
    else
      let r := delStore cs id
      (r.1, c :: r.2)

/-- `Course.insertMany(courses, { ordered: false })` against the unique index
on `course_id`: every record whose key already exists (in the store or among
the records inserted earlier in the same batch) produces a duplicate-key
write error; every other record is inserted.  Returns the new store, the
number of inserted records and the write errors (as offending keys, in batch
order). -/
def insertMany (st : Store) : List Course → Store × Nat × List String
  | [] => (st, 0, [])
  | c :: cs =>
    if storeHasId st c.course_id then
      let r := insertMany st cs
      (r.1, r.2.1, c.course_id :: r.2.2)
    else
      let r := insertMany (st ++ [c]) cs
      (r.1, r.2.1 + 1, r.2.2)

/-! ### The system state and the best-effort cache gateway

`RedisService` wraps every cache command in `try/catch`: a connection or
command failure is caught and converted to `null` (get) or `false` (set,
del, exists, flushPattern).  Availability is modelled by a single flag
`redisUp`; when it is off, every underlying command throws, the catch
branch runs, and the cache state is untouched. -/

/-- The combined system state: the persistent store, the cache contents, and
cache availability. -/
structure SysState where
  store : Store
  cache : Cache
  redisUp : Bool
deriving DecidableEq, Repr

/-- `redisService.get`: value on success, `null` when the command throws. -/
def rGet (s : SysState) (k : String) : Option Payload :=
  if s.redisUp then cacheFind s.cache k else none

/-- `redisService.set` (`setEx` with a TTL): `true` on success, `false` and
no state change when the command throws. -/
def rSet (s : SysState) (k : String) (v : Payload) (ttl : Nat) :
    SysState × Bool :=
  if s.redisUp then ({ s with cache := cacheSet s.cache k v ttl }, true)
  else (s, false)

/-- `redisService.del`. -/
def rDel (s : SysState) (k : String) : SysState × Bool :=
  if s.redisUp then ({ s with cache := cacheDel s.cache k }, true)
  else (s, false)

/-- `redisService.exists`. -/
def rExists (s : SysState) (k : String) : Bool :=
  if s.redisUp then (cacheFind s.cache k).isSome else false

/-- `redisService.flushPattern`: `KEYS pattern` then `DEL keys`. -/
def rFlush (s : SysState) (pat : String) : SysState × Bool :=
  if s.redisUp then ({ s with cache := cacheFlush s.cache pat }, true)
  else (s, false)

/-! ### Course Service: constants and the search query -/

/-- `CACHE_TTL.COURSE_DETAIL` (30 minutes). -/
def CACHE_TTL_COURSE_DETAIL : Nat := 1800

/-- `CACHE_TTL.SEARCH_RESULTS` (10 minutes). -/
def CACHE_TTL_SEARCH_RESULTS : Nat := 600

/-- `CACHE_TTL.COURSE_LIST` (5 minutes). -/
def CACHE_TTL_COURSE_LIST : Nat := 300

/-- `Math.ceil` on a rational. -/
def ceilQ (q : ℚ) : ℤ :=
  -(Rat.floor (-q))

/-- `subSeq n h`: some contiguous segment of `h` is led by `n`. -/
def subSeq (n : List Char) : List Char → Bool
  | [] => charsLead n []
  | c :: cs => charsLead n (c :: cs) || subSeq n cs

/-- Case-insensitive containment, the effect of matching a document field
against `new RegExp(category, "i")` for the plain category strings in play. -/
def containsCI (hay needle : String) : Bool :=
  subSeq (needle.data.map Char.toLower) (hay.data.map Char.toLower)

/-- The `$text` keyword search runs in the external query engine against the
schema's text index on `title` and `description`
(`CourseSchema.index({ title: 'text', description: 'text' })` in
`src/unnamed/part_003`); it is modelled as a word match over those two
fields.  No claim depends on which documents a text query matches. -/
def textMatch (q : String) (c : Course) : Bool :=
  (q.splitOn " ").any (fun w =>
    !(w == "") && (containsCI c.title w || containsCI c.description w))

/-- The filter `searchCourses` builds into `mongoQuery`, applied to one
document: text clause for a truthy `query`, case-insensitive category match
unless the category is falsy or `"all"`, exact skill level unless falsy or
`"all"`, and a minimum-rating threshold when `minRating` is present. -/
def matchesSearch (o : JSObj) (c : Course) : Bool :=
  (optStr o "query" "" == "" || textMatch (optStr o "query" "") c) &&
  (match optStrOpt o "category" with
   | some v => v == "" || v == "all" || containsCI c.category v
   | none => true) &&
  (match optStrOpt o "skillLevel" with
   | some v => v == "" || v == "all" || c.skill_level.toStr == v
   | none => true) &&
  (match optNumOpt o "minRating" with
   | some r => r ≤ c.rating
   | none => true)

/-- Descending-by-rating insertion used to model the rating sort.  The
relevance component of the ranking (`textScore`) is store-internal; no claim
depends on result order. -/
def insertByRating (c : Course) : List Course → List Course
  | [] => [c]
  | d :: ds =>
    if d.rating ≤ c.rating then c :: d :: ds else d :: insertByRating c ds

/-- `.sort({...rating: -1})` stand-in. -/
def sortByRating (l : List Course) : List Course :=
  l.foldr insertByRating []

/-- The store side of `searchCourses`: `Course.find(mongoQuery)` with sort,
`skip((page-1)*limit)`, `limit(limit)`, in parallel with
`Course.countDocuments(mongoQuery)`, assembled into a `CourseSearchResult`
with `cached: false`. -/
def runSearch (st : Store) (o : JSObj) : SearchResultData :=
  let page := optNum o "page" 1
  let lim := optNum o "limit" 20
  let found := st.filter (matchesSearch o)
  let totalCount : ℤ := found.length
  let skipN := (Rat.floor ((page - 1) * lim)).toNat
  let courses := ((sortByRating found).drop skipN).take (Rat.floor lim).toNat
  { courses := courses
    totalCount := totalCount
    pagination :=
      { currentPage := page
        totalPages := ceilQ ((totalCount : ℚ) / lim)
        hasNext := decide ((page * lim) < (totalCount : ℚ))
        hasPrev := decide (1 < page) }
    cached := false }

/-- The cache key of `searchCourses`:
`` `search:${JSON.stringify(options)}` ``. -/
def searchKey (o : JSObj) : String :=
  "search:" ++ jsonStringify o

/-- `CourseService.searchCourses`: cache get on the stringified descriptor;
on a hit, return the parsed payload with `cached: true`; on a miss, run the
store query and best-effort cache the result with the `SEARCH_RESULTS` TTL.
(A payload of another shape under a `search:` key never arises — every write
under such a key stores a search result — and is treated as a miss.) -/
def searchCourses (s : SysState) (options : JSObj) :
    SearchResultData × SysState :=
  let cacheKey := searchKey options
  match rGet s cacheKey with
  | some (Payload.search r) => ({ r with cached := true }, s)
  | _ =>
    let result := runSearch s.store options
    (result, (rSet s cacheKey (Payload.search result) CACHE_TTL_SEARCH_RESULTS).1)

/-- `CourseService.getCourseById`: cache get on `course:{courseId}`; hit
returns the parsed course; miss fetches from the store and caches only a
found course, with the `COURSE_DETAIL` TTL.  (A payload of another shape
under the key is treated as a miss; it never arises for a real course id.) -/
def getCourseById (s : SysState) (courseId : String) :
    Option Course × SysState :=
  let cacheKey := "course:" ++ courseId
  match rGet s cacheKey with
  | some (Payload.course c) => (some c, s)
  | _ =>
    match findOne s.store courseId with
    | some c =>
      (some c, (rSet s cacheKey (Payload.course c) CACHE_TTL_COURSE_DETAIL).1)
    | none => (none, s)

/-! ### Course Service: write path -/

/-- `CourseService.invalidateSearchCaches`: flush `search:*` and `courses:*`
and delete `course:stats`.  The three commands run under `Promise.all`; they
touch disjoint key spaces, so sequential composition is equivalent. -/
def invalidateSearchCaches (s : SysState) : SysState :=
  let s1 := (rFlush s "search:*").1
  let s2 := (rFlush s1 "courses:*").1
  (rDel s2 "course:stats").1

/-- `CourseService.updateCourse`: `findOneAndUpdate` first; only when a
document was matched, delete `course:{courseId}` and run the search-cache
invalidation; return the updated document or `null`. -/
def updateCourse (s : SysState) (courseId : String) (u : CourseUpdate) :
    Option Course × SysState :=
  let r := updStore s.store courseId u
  match r.1 with
  | some c =>
    let s1 : SysState := { s with store := r.2 }
    let s2 := (rDel s1 ("course:" ++ courseId)).1
    (some c, invalidateSearchCaches s2)
  | none => (none, { s with store := r.2 })

/-- `CourseService.deleteCourse`: `findOneAndDelete` first; only when a
document was matched, delete `course:{courseId}` and run the search-cache
invalidation; return whether a document was deleted. -/
def deleteCourse (s : SysState) (courseId : String) : Bool × SysState :=
  let r := delStore s.store courseId
  match r.1 with
  | some _ =>
    let s1 : SysState := { s with store := r.2 }
    let s2 := (rDel s1 ("course:" ++ courseId)).1
    (true, invalidateSearchCaches s2)
  | none => (false, { s with store := r.2 })

/-- Result of `bulkInsertCourses`. -/
structure BulkResult where
  insertedCount : Nat
  duplicateCount : Nat
  errors : List String
deriving DecidableEq, Repr

/-- `CourseService.bulkInsertCourses`: `insertMany { ordered: false }`; when
duplicate-key write errors occur (`error.code === 11000`) the batch still
partially succeeds with `insertedCount = courses.length - writeErrors.length`
and `duplicateCount = writeErrors.length`; with no errors every record is
inserted and `duplicateCount = 0`.  The search caches are invalidated
afterwards in both cases. -/
def bulkInsertCourses (s : SysState) (courses : List Course) :
    BulkResult × SysState :=
  let r := insertMany s.store courses
  let res : BulkResult :=
    if r.2.2.isEmpty then
      { insertedCount := r.2.1, duplicateCount := 0, errors := [] }
    else
      { insertedCount := courses.length - r.2.2.length
        duplicateCount := r.2.2.length
        errors := r.2.2 }
  (res, invalidateSearchCaches { s with store := r.1 })

/-! ### Course Service: stats -/

/-- Increment the count bucket for a key (the `$group` accumulator folded
into a `Record<string, number>`). -/
def bumpCount (l : List (String × ℤ)) (k : String) : List (String × ℤ) :=
  match l with
  | [] => [(k, 1)]
  | (k0, n) :: rest =>
    if k0 == k then (k0, n + 1) :: rest else (k0, n) :: bumpCount rest k

/-- Grouped counts, in first-appearance order. -/
def countBy (f : Course → String) (st : Store) : List (String × ℤ) :=
  st.foldl (fun acc c => bumpCount acc (f c)) []

/-- Sum of all ratings. -/
def sumRatings (st : Store) : ℚ :=
  st.foldl (fun a c => a + c.rating) 0

/-- The aggregation side of `getCourseStats`: total count, per-category and
per-skill-level grouped counts, and the average rating (`0` for an empty
collection, via `avgRating[0]?.avgRating || 0`). -/
def computeStats (st : Store) : StatsData :=
  { totalCourses := st.length
    categoriesCount := countBy (fun c => c.category) st
    skillLevelCount := countBy (fun c => c.skill_level.toStr) st
    averageRating :=
      if st.length = 0 then 0 else sumRatings st / (st.length : ℚ) }

/-- `CourseService.getCourseStats`: cache get on `course:stats`; a hit
returns the parsed stats object as is; a miss runs the aggregations and
caches the result for 900 seconds. -/
def getCourseStats (s : SysState) : StatsData × SysState :=
  match rGet s "course:stats" with
  | some (Payload.stats v) => (v, s)
  | _ =>
    let v := computeStats s.store
    (v, (rSet s "course:stats" (Payload.stats v) 900).1)

/-! ### Route handlers with their own cache logic -/

/-- The mutation-and-invalidation core of the `PUT /api/courses/[id]`
handler (after the admin gate and body validation): `findOneAndUpdate`, and
on success delete `course:{courseId}` and flush `search:*` and `courses:*` —
this handler does not delete `course:stats`. -/
def putCourseRoute (s : SysState) (courseId : String) (u : CourseUpdate) :
    Option Course × SysState :=
  let r := updStore s.store courseId u
  match r.1 with
  | some c =>
    let s1 : SysState := { s with store := r.2 }
    let s2 := (rDel s1 ("course:" ++ courseId)).1
    let s3 := (rFlush s2 "search:*").1
    (some c, (rFlush s3 "courses:*").1)
  | none => (none, { s with store := r.2 })

/-- The mutation-and-invalidation core of the `DELETE /api/courses/[id]`
handler: `findOneAndDelete`, and on success delete `course:{courseId}` and
flush `search:*` and `courses:*` — again without deleting `course:stats`. -/
def deleteCourseRoute (s : SysState) (courseId : String) :
    Option Course × SysState :=
  let r := delStore s.store courseId
  match r.1 with
  | some c =>
    let s1 : SysState := { s with store := r.2 }
    let s2 := (rDel s1 ("course:" ++ courseId)).1
    let s3 := (rFlush s2 "search:*").1
    (some c, (rFlush s3 "courses:*").1)
  | none => (none, { s with store := r.2 })

/-- The filter object of the upload route's GET (course listing) handler:
`query.category` / `query.skill_level` are set only for truthy parameters,
in that insertion order. -/
def listQueryObj (category skillLevel : Option String) : JSObj :=
  (match category with
   | some v => if v == "" then [] else [("category", OVal.s v)]
   | none => []) ++
  (match skillLevel with
   | some v => if v == "" then [] else [("skill_level", OVal.s v)]
   | none => [])

/-- The listing cache key:
`` `courses:list:${JSON.stringify(query)}:${page}:${limit}` ``. -/
def listKey (category skillLevel : Option String) (page lim : ℚ) : String :=
  "courses:list:" ++ jsonStringify (listQueryObj category skillLevel) ++
    ":" ++ numStr page ++ ":" ++ numStr lim

/-- One document against the listing filter (exact field equality here, not
a regex). -/
def matchesList (category skillLevel : Option String) (c : Course) : Bool :=
  (match category with
   | some v => v == "" || c.category == v
   | none => true) &&
  (match skillLevel with
   | some v => v == "" || c.skill_level.toStr == v
   | none => true)

/-- The store side of the listing: `Course.find(query)` with skip/limit
paging and the count, assembled into the route's result object.  The
`createdAt` sort key is not modelled (timestamps carry no claim); documents
keep store order. -/
def runList (st : Store) (category skillLevel : Option String)
    (page lim : ℚ) : ListResultData :=
  let found := st.filter (matchesList category skillLevel)
  let totalCount : ℤ := found.length
  let skipN := (Rat.floor ((page - 1) * lim)).toNat
  { courses := (found.drop skipN).take (Rat.floor lim).toNat
    totalCourses := totalCount
    currentPage := page
    totalPages := ceilQ ((totalCount : ℚ) / lim) }

/-- The cache-and-query core of the upload route's GET (course listing)
handler: cache get; a hit returns the parsed result as is (no `cached`
marker exists on this result); a miss queries the store with skip/limit
paging and caches the result for 300 seconds. -/
def listCoursesRoute (s : SysState) (category skillLevel : Option String)
    (page lim : ℚ) : ListResultData × SysState :=
  let cacheKey := listKey category skillLevel page lim
  match rGet s cacheKey with
  | some (Payload.listing l) => (l, s)
  | _ =>
    let l := runList s.store category skillLevel page lim
    (l, (rSet s cacheKey (Payload.listing l) 300).1)

/-! ### Validation (`validation.ts` and `csv-parser.ts`) -/

/-- The rating rule of the zod `CourseCreateSchema`:
`z.number().min(0).max(5)` — both bounds inclusive. -/
def zodRatingOk (r : ℚ) : Bool :=
  decide (0 ≤ r) && decide (r ≤ 5)

/-- `CourseCreateSchema.parse` succeeding on a course record: every string
rule (`min`/`max` length) and the rating range hold.  `skill_level` is the
enum and is valid by typing. -/
def courseCreateValid (c : Course) : Bool :=
  decide (1 ≤ c.course_id.length) &&
  decide (1 ≤ c.title.length) && decide (c.title.length ≤ 200) &&
  decide (10 ≤ c.description.length) &&
  decide (1 ≤ c.category.length) &&
  decide (1 ≤ c.instructor.length) &&
  decide (1 ≤ c.duration.length) &&
  decide (1 ≤ c.price.length) &&
  zodRatingOk c.rating

/-- A CSV row after `csv-parse` with `cast: true`: the textual fields, the
rating already cast to a number, and the raw skill-level string.  `NaN`
(a non-numeric rating cell) is outside this model; the rating claims concern
numeric values only. -/
structure CSVCourseData where
  course_id : String
  title : String
  description : String
  category : String
  instructor : String
  duration : String
  price : String
  rating : ℚ
  skill_level : String
deriving DecidableEq, Repr

/-- The rating-range violation message of `validateCourseData`. -/
def ratingRangeMsg : String := "rating must be a number between 0 and 5"

/-- `validateCourseData` of `csv-parser.ts`, error list in source order.
JS truthiness: an empty string (and the number `0` for the cast rating) is
falsy, so the rating range is only checked for a nonzero rating and the
skill-level enum only for a nonempty string. -/
def validateCourseData (d : CSVCourseData) : List String :=
  (if d.course_id == "" then ["course_id is required"] else []) ++
  (if d.title == "" then ["title is required"] else []) ++
  (if d.description == "" then ["description is required"] else []) ++
  (if d.category == "" then ["category is required"] else []) ++
  (if d.instructor == "" then ["instructor is required"] else []) ++
  (if d.duration == "" then ["duration is required"] else []) ++
  (if d.price == "" then ["price is required"] else []) ++
  (if d.rating ≠ 0 ∧ (d.rating < 0 ∨ 5 < d.rating)
   then [ratingRangeMsg] else []) ++
  (if !(d.skill_level == "") &&
      !(d.skill_level == "beginner" || d.skill_level == "intermediate" ||
        d.skill_level == "advanced")
   then ["skill_level must be beginner, intermediate, or advanced"] else [])

/-! ### Invalidation key sets (for stating the frame claims) -/

/-- The key set swept by the service's `updateCourse`/`deleteCourse`:
`course:{id}`, every `search:*` key, every `courses:*` key, and
`course:stats`. -/
def svcSweep (courseId k : String) : Bool :=
  (k == "course:" ++ courseId) || strStarts "search:" k ||
    strStarts "courses:" k || (k == "course:stats")

/-- The key set swept by the PUT/DELETE route handlers: the same minus
`course:stats`. -/
def routeSweep (courseId k : String) : Bool :=
  (k == "course:" ++ courseId) || strStarts "search:" k ||
    strStarts "courses:" k

/-! ### Batch partitions (for stating the bulk-insert claim) -/

/-- The records of a batch whose business key is not yet stored. -/
def newRecords (st : Store) (cs : List Course) : List Course :=
  cs.filter (fun c => !storeHasId st c.course_id)

/-- The records of a batch whose business key is already stored. -/
def dupRecords (st : Store) (cs : List Course) : List Course :=
  cs.filter (fun c => storeHasId st c.course_id)

/-! ### Concrete sample data used by witnesses and counterexamples -/

/-- A concrete course record. -/
def mkCourse (id : String) (r : ℚ) : Course :=
  { course_id := id, title := "Intro", description := "An introduction."
    category := "math", instructor := "Ada", duration := "4 weeks"
    price := "free", rating := r, skill_level := .beginner }

/-- Descriptor `{ query: "algebra", page: 1 }` built in this field order. -/
def descQueryFirst : JSObj :=
  [("query", OVal.s "algebra"), ("page", OVal.n 1)]

/-- The same logical descriptor built with the fields inserted in the other
order: `{ page: 1, query: "algebra" }`. -/
def descPageFirst : JSObj :=
  [("page", OVal.n 1), ("query", OVal.s "algebra")]

/-- A store and cache for the route-invalidation counterexample: the stats
aggregate is cached when the route update runs. -/
def c3store : Store := [mkCourse "c1" 4]

/-- Stats entry present in cache before the route PUT. -/
def c3cache : Cache :=
  [("course:stats", Payload.stats (computeStats c3store), 900)]

/-- The update sent through the PUT route. -/
def c3upd : CourseUpdate := { rating := some 3 }

/-- The run of the PUT route on that state. -/
def c3run : Option Course × SysState :=
  putCourseRoute ⟨c3store, c3cache, true⟩ "c1" c3upd

/-- A pre-update state whose cache holds the course about to be updated. -/
def w2state : SysState :=
  ⟨[mkCourse "c1" 4], [("course:c1", Payload.course (mkCourse "c1" 4), 1800)],
    true⟩

/-- A concrete rating update. -/
def w2upd : CourseUpdate := { rating := some 3 }

/-- A partial update that sets a new business key — accepted by
`CourseUpdateSchema` and applied by `findOneAndUpdate`. -/
def rekeyUpd : CourseUpdate := { course_id := some "c9" }

/-- A one-course store for concrete invalidation runs. -/
def w3store : Store := [mkCourse "c1" 4]

/-- A cache populated with one entry of every key family, plus a detail entry
of an unrelated course that must survive the sweeps. -/
def w3cache : Cache :=
  [("course:c1", Payload.course (mkCourse "c1" 4), 1800),
   ("search:x", Payload.search ⟨[], 0, ⟨1, 0, false, false⟩, false⟩, 600),
   ("courses:list:y", Payload.listing ⟨[], 0, 1, 0⟩, 300),
   ("course:stats", Payload.stats ⟨0, [], [], 0⟩, 900),
   ("course:other", Payload.course (mkCourse "other" 2), 1800)]

/-- A store holding the business key `a`. -/
def w4store : Store := [mkCourse "a" 4]

/-- A batch with one duplicate of the stored key and two fresh records. -/
def w4batch : List Course :=
  [mkCourse "a" 3, mkCourse "b" 4, mkCourse "c" 5]

/-- The stats of an empty collection, written out literally. -/
def c7stats : StatsData :=
  { totalCourses := 0, categoriesCount := [], skillLevelCount := []
    averageRating := 0 }

/-- The listing result of an empty store at page 1, limit 20. -/
def w7list : ListResultData := runList [] none none 1 20

/-- A concrete cached search result. -/
def w7result : SearchResultData :=
  { courses := [], totalCount := 0
    pagination := { currentPage := 1, totalPages := 0, hasNext := false
                    hasPrev := false }
    cached := false }

/-- The rational −0.1. -/
def qNeg01 : ℚ := ⟨-1, 10, by decide, by decide⟩

/-- The rational 5.1. -/
def qPos51 : ℚ := ⟨51, 10, by decide, by decide⟩

/-- A CSV row that is valid except possibly for its rating. -/
def w8csv (r : ℚ) : CSVCourseData :=
  { course_id := "c", title := "t", description := "a description"
    category := "math", instructor := "Ada", duration := "4 weeks"
    price := "free", rating := r, skill_level := "beginner" }

/-! ## Helper lemmas -/

/-- An update whose partial leaves the business key alone (absent, or set to
the same value) preserves `course_id`. -/
theorem applyUpdate_id {u : CourseUpdate} {c : Course} {id : String}
    (hkey : u.course_id = none ∨ u.course_id = some id)
    (hc : c.course_id = id) :
    (applyUpdate u c).course_id = id := by
  rcases hkey with hk | hk <;> simp [applyUpdate, hk, hc]

theorem patMatch_search (k : String) :
    patMatch "search:*" k = strStarts "search:" k := rfl

theorem patMatch_courses (k : String) :
    patMatch "courses:*" k = strStarts "courses:" k := rfl

theorem updStore_none {st : Store} {id : String} {u : CourseUpdate}
    (h : (updStore st id u).1 = none) : (updStore st id u).2 = st := by
  induction st with
  | nil => rfl
  | cons c cs ih =>
    by_cases hc : (c.course_id == id) = true
    · simp [updStore, hc] at h
    · simp only [updStore, hc] at h ⊢
      simp_all

theorem delStore_none {st : Store} {id : String}
    (h : (delStore st id).1 = none) : (delStore st id).2 = st := by
  induction st with
  | nil => rfl
  | cons c cs ih =>
    by_cases hc : (c.course_id == id) = true
    · simp [delStore, hc] at h
    · simp only [delStore, hc] at h ⊢
      simp_all

/-- A successful first-match update returns the applied update of a record
that was findable before under the business key. -/
theorem updStore_some {st : Store} {id : String} {u : CourseUpdate} {c' : Course}
    (h : (updStore st id u).1 = some c') :
    ∃ c, findOne st id = some c ∧ c' = applyUpdate u c := by
  induction st with
  | nil => simp [updStore] at h
  | cons c cs ih =>
    by_cases hc : (c.course_id == id) = true
    · simp only [updStore, hc, if_pos] at h ⊢
      obtain rfl : applyUpdate u c = c' := by simpa using h
      exact ⟨c, by simp [findOne, List.find?, hc], rfl⟩
    · simp only [updStore, hc, if_neg] at h ⊢
      obtain ⟨c0, h2, h3⟩ := ih h
      refine ⟨c0, ?_, h3⟩
      simpa [findOne, List.find?, hc] using h2

/-- When the partial does not change the business key, a successful
first-match update additionally leaves the updated record findable under
that key. -/
theorem updStore_some_findOne {st : Store} {id : String} {u : CourseUpdate}
    {c' : Course}
    (hkey : u.course_id = none ∨ u.course_id = some id)
    (h : (updStore st id u).1 = some c') :
    findOne (updStore st id u).2 id = some c' := by
  induction st with
  | nil => simp [updStore] at h
  | cons c cs ih =>
    by_cases hc : (c.course_id == id) = true
    · simp only [updStore, hc, if_pos] at h ⊢
      obtain rfl : applyUpdate u c = c' := by simpa using h
      have hid : (applyUpdate u c).course_id = id :=
        applyUpdate_id hkey (by simpa using hc)
      simp [findOne, List.find?, hid]
    · simp only [updStore, hc, if_neg] at h ⊢
      simpa [findOne, List.find?, hc] using ih h

/-- The four invalidation commands of the service write path compose to one
filter over the cache. -/
theorem svc_sweep_cache (cache : Cache) (cid : String) :
    cacheDel (cacheFlush (cacheFlush (cacheDel cache ("course:" ++ cid))
        "search:*") "courses:*") "course:stats" =
      cache.filter (fun e => !svcSweep cid e.1) := by
  simp only [cacheDel, cacheFlush, List.filter_filter]
  refine List.filter_congr ?_
  intro e _
  simp only [patMatch_search, patMatch_courses, svcSweep]
  cases h1 : (e.1 == "course:" ++ cid) <;>
    cases h2 : strStarts "search:" e.1 <;>
    cases h3 : strStarts "courses:" e.1 <;>
    cases h4 : (e.1 == "course:stats") <;> rfl

/-- The three invalidation commands of the PUT/DELETE route handlers compose
to one filter over the cache. -/
theorem route_sweep_cache (cache : Cache) (cid : String) :
    cacheFlush (cacheFlush (cacheDel cache ("course:" ++ cid))
        "search:*") "courses:*" =
      cache.filter (fun e => !routeSweep cid e.1) := by
  simp only [cacheDel, cacheFlush, List.filter_filter]
  refine List.filter_congr ?_
  intro e _
  simp only [patMatch_search, patMatch_courses, routeSweep]
  cases h1 : (e.1 == "course:" ++ cid) <;>
    cases h2 : strStarts "search:" e.1 <;>
    cases h3 : strStarts "courses:" e.1 <;> rfl

theorem updateCourse_some_eq {st : Store} {cache : Cache} {id : String}
    {u : CourseUpdate} {c' : Course}
    (h : (updStore st id u).1 = some c') :
    updateCourse ⟨st, cache, true⟩ id u =
      (some c', ⟨(updStore st id u).2,
        cache.filter (fun e => !svcSweep id e.1), true⟩) := by
  simp only [updateCourse, h, invalidateSearchCaches, rDel, rFlush, if_pos]
  simp [svc_sweep_cache]

theorem deleteCourse_some_eq {st : Store} {cache : Cache} {id : String}
    {c' : Course}
    (h : (delStore st id).1 = some c') :
    deleteCourse ⟨st, cache, true⟩ id =
      (true, ⟨(delStore st id).2,
        cache.filter (fun e => !svcSweep id e.1), true⟩) := by
  simp only [deleteCourse, h, invalidateSearchCaches, rDel, rFlush, if_pos]
  simp [svc_sweep_cache]

theorem putCourseRoute_some_eq {st : Store} {cache : Cache} {id : String}
    {u : CourseUpdate} {c' : Course}
    (h : (updStore st id u).1 = some c') :
    putCourseRoute ⟨st, cache, true⟩ id u =
      (some c', ⟨(updStore st id u).2,
        cache.filter (fun e => !routeSweep id e.1), true⟩) := by
  simp only [putCourseRoute, h, rDel, rFlush, if_pos]
  simp [route_sweep_cache]

theorem deleteCourseRoute_some_eq {st : Store} {cache : Cache} {id : String}
    {c' : Course}
    (h : (delStore st id).1 = some c') :
    deleteCourseRoute ⟨st, cache, true⟩ id =
      (some c', ⟨(delStore st id).2,
        cache.filter (fun e => !routeSweep id e.1), true⟩) := by
  simp only [deleteCourseRoute, h, rDel, rFlush, if_pos]
  simp [route_sweep_cache]

/-- After the service sweep, the detail key of the written course is gone. -/
theorem cacheFind_svc_sweep (cache : Cache) (id : String) :
    cacheFind (cache.filter (fun e => !svcSweep id e.1)) ("course:" ++ id) =
      none := by
  have hfind : (cache.filter (fun e => !svcSweep id e.1)).find?
      (fun e => e.1 == "course:" ++ id) = none := by
    rw [List.find?_eq_none]
    intro e he hk
    rcases List.mem_filter.mp he with ⟨-, hs⟩
    simp only [svcSweep, hk, Bool.true_or, Bool.not_true] at hs
    exact Bool.false_ne_true hs
  simp [cacheFind, hfind]

/-- Whatever the cache availability, a successful `updateCourse` leaves the
next `course:{id}` cache read a miss. -/
theorem rGet_state_after_update {s s' : SysState} {id : String}
    {u : CourseUpdate} {c' : Course}
    (h : updateCourse s id u = (some c', s')) :
    rGet s' ("course:" ++ id) = none := by
  cases s with
  | mk st cache up =>
    cases hu : (updStore st id u).1 with
    | none => simp [updateCourse, hu] at h
    | some c0 =>
      cases up with
      | false =>
        simp only [updateCourse, hu, invalidateSearchCaches, rDel, rFlush,
          Bool.false_eq_true, reduceIte] at h
        obtain ⟨-, rfl⟩ := Prod.mk.inj h
        simp [rGet]
      | true =>
        rw [updateCourse_some_eq hu] at h
        obtain ⟨-, rfl⟩ := Prod.mk.inj h
        simpa [rGet] using cacheFind_svc_sweep cache id

theorem updateCourse_store {s s' : SysState} {id : String}
    {u : CourseUpdate} {c' : Course}
    (h : updateCourse s id u = (some c', s')) :
    s'.store = (updStore s.store id u).2 ∧
      (updStore s.store id u).1 = some c' := by
  cases s with
  | mk st cache up =>
    cases hu : (updStore st id u).1 with
    | none => simp [updateCourse, hu] at h
    | some c0 =>
      cases up with
      | false =>
        simp only [updateCourse, hu, invalidateSearchCaches, rDel, rFlush,
          Bool.false_eq_true, reduceIte] at h
        obtain ⟨h1, rfl⟩ := Prod.mk.inj h
        obtain rfl : c0 = c' := by simpa using h1
        exact ⟨rfl, rfl⟩
      | true =>
        rw [updateCourse_some_eq hu] at h
        obtain ⟨h1, rfl⟩ := Prod.mk.inj h
        obtain rfl : c0 = c' := by simpa using h1
        exact ⟨rfl, rfl⟩

/-- After a successful update, `getCourseById` answers with the updated
record (from the store, the cache entry having been invalidated). -/
theorem get_after_update {s s' : SysState} {id : String}
    {u : CourseUpdate} {c' : Course}
    (hkey : u.course_id = none ∨ u.course_id = some id)
    (h : updateCourse s id u = (some c', s')) :
    (getCourseById s' id).1 = some c' := by
  have hST := updateCourse_store h
  have hmiss := rGet_state_after_update h
  have hfind1 : findOne s'.store id = some c' :=
    hST.1 ▸ updStore_some_findOne hkey hST.2
  simp [getCourseById, hmiss, hfind1]

theorem storeHasId_append (st : Store) (c : Course) (id : String) :
    storeHasId (st ++ [c]) id = (storeHasId st id || (c.course_id == id)) := by
  simp [storeHasId, List.any_append]

theorem find?_course_id_nodup {l : List Course} {c : Course}
    (hmem : c ∈ l) (hnd : (l.map Course.course_id).Nodup) :
    l.find? (fun x => x.course_id == c.course_id) = some c := by
  induction l with
  | nil => cases hmem
  | cons d tl ih =>
    rw [List.map_cons, List.nodup_cons] at hnd
    rcases List.mem_cons.mp hmem with rfl | hm
    · simp [List.find?]
    · have hd : (d.course_id == c.course_id) = false := by
        rw [beq_eq_false_iff_ne]
        intro hx
        exact hnd.1 (hx ▸ List.mem_map_of_mem Course.course_id hm)
      simp only [List.find?, hd]
      exact ih hm hnd.2

/-- Inserting a fresh record does not change which later batch records count
as new or duplicate, provided the fresh key occurs only once among the new
records. -/
theorem newRecords_congr {st : Store} {c : Course} {cs : List Course}
    (hni : c.course_id ∉ (newRecords st cs).map Course.course_id) :
    newRecords (st ++ [c]) cs = newRecords st cs ∧
      dupRecords (st ++ [c]) cs = dupRecords st cs := by
  have key : ∀ x ∈ cs, storeHasId (st ++ [c]) x.course_id =
      storeHasId st x.course_id := by
    intro x hx
    rw [storeHasId_append]
    cases hs : storeHasId st x.course_id
    · have : (c.course_id == x.course_id) = false := by
        rw [beq_eq_false_iff_ne]
        intro he
        refine hni ?_
        refine he ▸ List.mem_map_of_mem Course.course_id ?_
        exact List.mem_filter.mpr ⟨hx, by simp [hs]⟩
      simp [this]
    · simp
  constructor
  · exact List.filter_congr (fun x hx => by rw [key x hx])
  · exact List.filter_congr (fun x hx => by rw [key x hx])

/-- Characterization of `insertMany { ordered: false }`: the new records are
appended, their count is returned, and the duplicates produce write errors in
batch order. -/
theorem insertMany_eq (cs : List Course) : ∀ (st : Store),
    ((newRecords st cs).map Course.course_id).Nodup →
    insertMany st cs =
      (st ++ newRecords st cs, (newRecords st cs).length,
        (dupRecords st cs).map Course.course_id) := by
  induction cs with
  | nil =>
    intro st _
    simp [insertMany, newRecords, dupRecords]
  | cons c cs ih =>
    intro st h
    cases hc : storeHasId st c.course_id with
    | true =>
      have hnew : newRecords st (c :: cs) = newRecords st cs := by
        simp [newRecords, List.filter_cons, hc]
      have hdup : dupRecords st (c :: cs) = c :: dupRecords st cs := by
        simp [dupRecords, List.filter_cons, hc]
      rw [hnew] at h
      simp only [insertMany, hc, ih st h, hnew, hdup, List.map_cons,
        reduceIte]
    | false =>
      have hnew : newRecords st (c :: cs) = c :: newRecords st cs := by
        simp [newRecords, List.filter_cons, hc]
      have hdup : dupRecords st (c :: cs) = dupRecords st cs := by
        simp [dupRecords, List.filter_cons, hc]
      rw [hnew, List.map_cons, List.nodup_cons] at h
      obtain ⟨hni, htl⟩ := h
      obtain ⟨hn2, hd2⟩ := newRecords_congr hni
      have ihx := ih (st ++ [c]) (by rw [hn2]; exact htl)
      rw [hn2, hd2] at ihx
      simp only [insertMany, hc, ihx, hnew, hdup, List.length_cons,
        Bool.false_eq_true, reduceIte]
      simp [List.append_assoc]

theorem findOne_append_new {st : Store} {news : List Course} {c : Course}
    (hmem : c ∈ news) (hnd : (news.map Course.course_id).Nodup)
    (habs : storeHasId st c.course_id = false) :
    findOne (st ++ news) c.course_id = some c := by
  have h1 : st.find? (fun x => x.course_id == c.course_id) = none := by
    rw [List.find?_eq_none]
    intro x hx hbeq
    have ht : storeHasId st c.course_id = true := by
      rw [storeHasId, List.any_eq_true]
      exact ⟨x, hx, hbeq⟩
    rw [habs] at ht
    cases ht
  rw [findOne, List.find?_append, h1]
  simpa using find?_course_id_nodup hmem hnd

theorem filter_split_length (st : Store) (l : List Course) :
    (l.filter (fun c => !storeHasId st c.course_id)).length +
      (l.filter (fun c => storeHasId st c.course_id)).length = l.length := by
  induction l with
  | nil => rfl
  | cons c t iht =>
    cases hc : storeHasId st c.course_id <;>
      simp [List.filter_cons, hc] <;> omega

theorem invalidate_store (s : SysState) :
    (invalidateSearchCaches s).store = s.store := by
  cases s with
  | mk st cache up =>
    cases up <;> simp [invalidateSearchCaches, rFlush, rDel]

theorem updStore_not_found {st : Store} {id : String} (u : CourseUpdate)
    (h : findOne st id = none) : updStore st id u = (none, st) := by
  induction st with
  | nil => rfl
  | cons c cs ih =>
    cases hc : (c.course_id == id) with
    | true => simp [findOne, List.find?, hc] at h
    | false =>
      simp only [findOne, List.find?, hc] at h
      simp [updStore, hc, ih h]

theorem delStore_not_found {st : Store} {id : String}
    (h : findOne st id = none) : delStore st id = (none, st) := by
  induction st with
  | nil => rfl
  | cons c cs ih =>
    cases hc : (c.course_id == id) with
    | true => simp [findOne, List.find?, hc] at h
    | false =>
      simp only [findOne, List.find?, hc] at h
      simp [delStore, hc, ih h]

/-- The rating-range error is reported exactly for a truthy rating outside
`[0,5]`. -/
theorem ratingMsg_mem_iff (d : CSVCourseData) :
    ratingRangeMsg ∈ validateCourseData d ↔
      (d.rating ≠ 0 ∧ (d.rating < 0 ∨ 5 < d.rating)) := by
  simp [validateCourseData, ratingRangeMsg]

/-! ## The claims -/

/-- C1: the claim says two semantically equal search descriptors built with
different field insertion order produce the same cache key, making the second
call a cache hit.  The code derives the key from `JSON.stringify(options)`,
which serializes fields in insertion order, so the two descriptors here —
logically identical, fields inserted in opposite orders — get different keys
and the second call is a miss reporting `cached = false`; repeating the call
with the same insertion order does hit (`cached = true`).  This evaluates the
code at the failing input of the key-stability claim. -/
theorem search_key_depends_on_insertion_order :
    descSem descQueryFirst = descSem descPageFirst ∧
    searchKey descQueryFirst ≠ searchKey descPageFirst ∧
    (searchCourses (searchCourses ⟨[], [], true⟩ descQueryFirst).2
      descPageFirst).1.cached = false ∧
    (searchCourses (searchCourses ⟨[], [], true⟩ descQueryFirst).2
      descQueryFirst).1.cached = true := by decide

/-- C2 counterexample: the claim quantifies over every valid partial update,
but `Partial<ICourse>` (and `CourseUpdateSchema`) include `course_id`.  An
update that sets a new business key succeeds — `findOneAndUpdate` matches
the old key and applies the `$set` — yet the subsequent `getCourseById` of
the original key returns `null`, not the updated record: the store no longer
holds that key and the read is not even a cached answer. -/
theorem rekey_update_breaks_get :
    (updateCourse w2state "c1" rekeyUpd).1 = some (mkCourse "c9" 4) ∧
    (getCourseById (updateCourse w2state "c1" rekeyUpd).2 "c1").1 =
      none := by decide

/-- C2 as amended: for every successful `updateCourse(id, partial)` whose
partial does not change the business key (no `course_id` field, or set to
the same `id`), a subsequent `getCourseById(id)` returns the updated record;
the `course:{id}` cache entry has been deleted so the read is a cache miss
answered from the post-update store; the result is the update applied to the
previously stored record; and (when the cache is up) the read repopulates
`course:{id}` with the post-update record. -/
theorem update_invalidates_then_get_repopulates {s s' : SysState}
    {id : String} {u : CourseUpdate} {c' : Course}
    (hkey : u.course_id = none ∨ u.course_id = some id)
    (h : updateCourse s id u = (some c', s')) :
    (getCourseById s' id).1 = some c' ∧
    rGet s' ("course:" ++ id) = none ∧
    (∃ c, findOne s.store id = some c ∧ c' = applyUpdate u c) ∧
    (s'.redisUp = true →
      cacheFind ((getCourseById s' id).2).cache ("course:" ++ id) =
        some (Payload.course c')) := by
  have hST := updateCourse_store h
  have hmiss := rGet_state_after_update h
  have hfind1 : findOne s'.store id = some c' :=
    hST.1 ▸ updStore_some_findOne hkey hST.2
  refine ⟨get_after_update hkey h, hmiss, updStore_some hST.2, ?_⟩
  intro hup
  simp [getCourseById, hmiss, hfind1, rSet, hup, cacheSet, cacheFind]

/-- Witness for C2 at a concrete state whose cache holds the pre-update
record. -/
theorem update_invalidates_then_get_repopulates_witness :
    (getCourseById (updateCourse w2state "c1" w2upd).2 "c1").1 =
      some (mkCourse "c1" 3) ∧
    rGet (updateCourse w2state "c1" w2upd).2 ("course:" ++ "c1") = none ∧
    (∃ c, findOne w2state.store "c1" = some c ∧
      mkCourse "c1" 3 = applyUpdate w2upd c) ∧
    cacheFind ((getCourseById (updateCourse w2state "c1" w2upd).2 "c1").2).cache
      ("course:" ++ "c1") = some (Payload.course (mkCourse "c1" 3)) := by
  have h1 : (updateCourse w2state "c1" w2upd).1 = some (mkCourse "c1" 3) := by
    decide
  have hx := update_invalidates_then_get_repopulates (Or.inl rfl)
    (by rw [← h1])
  exact ⟨hx.1, hx.2.1, hx.2.2.1, hx.2.2.2 (by decide)⟩

/-- C3 counterexample: the claim states that every successful update sweeps
`course:stats`, citing the PUT route handler among its sources; but a
successful update through the PUT route leaves the cached `course:stats`
entry in place (here with its original 900-second TTL). -/
theorem route_update_leaves_stats_cached :
    c3run.1 = some (mkCourse "c1" 3) ∧
    cacheTtl c3run.2.cache "course:stats" = some 900 := by decide

/-- C3 as amended: with the cache up, a successful service-level
`updateCourse`/`deleteCourse` deletes exactly the keys matched by
`svcSweep` — `course:{id}`, `search:*`, `courses:*` and `course:stats` — and
a successful update/delete through the route handlers deletes exactly the
keys matched by `routeSweep`, the same set without `course:stats`; every
other cache entry survives unchanged. -/
theorem write_invalidation_exact_sets {st1 : Store} {cache1 : Cache}
    {id1 : String} {u1 : CourseUpdate} {c1 : Course} {s1 : SysState}
    {st2 : Store} {cache2 : Cache} {id2 : String} {s2 : SysState}
    {st3 : Store} {cache3 : Cache} {id3 : String} {u3 : CourseUpdate}
    {c3x : Course} {s3 : SysState}
    {st4 : Store} {cache4 : Cache} {id4 : String} {c4x : Course} {s4 : SysState}
    (h1 : updateCourse ⟨st1, cache1, true⟩ id1 u1 = (some c1, s1))
    (h2 : deleteCourse ⟨st2, cache2, true⟩ id2 = (true, s2))
    (h3 : putCourseRoute ⟨st3, cache3, true⟩ id3 u3 = (some c3x, s3))
    (h4 : deleteCourseRoute ⟨st4, cache4, true⟩ id4 = (some c4x, s4)) :
    s1.cache = cache1.filter (fun e => !svcSweep id1 e.1) ∧
    s2.cache = cache2.filter (fun e => !svcSweep id2 e.1) ∧
    s3.cache = cache3.filter (fun e => !routeSweep id3 e.1) ∧
    s4.cache = cache4.filter (fun e => !routeSweep id4 e.1) := by
  refine ⟨?_, ?_, ?_, ?_⟩
  · cases hu : (updStore st1 id1 u1).1 with
    | none => simp [updateCourse, hu] at h1
    | some c0 =>
      rw [updateCourse_some_eq hu] at h1
      obtain ⟨-, rfl⟩ := Prod.mk.inj h1
      rfl
  · cases hu : (delStore st2 id2).1 with
    | none => simp [deleteCourse, hu] at h2
    | some c0 =>
      rw [deleteCourse_some_eq hu] at h2
      obtain ⟨-, rfl⟩ := Prod.mk.inj h2
      rfl
  · cases hu : (updStore st3 id3 u3).1 with
    | none => simp [putCourseRoute, hu] at h3
    | some c0 =>
      rw [putCourseRoute_some_eq hu] at h3
      obtain ⟨-, rfl⟩ := Prod.mk.inj h3
      rfl
  · cases hu : (delStore st4 id4).1 with
    | none => simp [deleteCourseRoute, hu] at h4
    | some c0 =>
      rw [deleteCourseRoute_some_eq hu] at h4
      obtain ⟨-, rfl⟩ := Prod.mk.inj h4
      rfl

/-- Witness for C3 on a cache holding every key family. -/
theorem write_invalidation_exact_sets_witness :
    (updateCourse ⟨w3store, w3cache, true⟩ "c1" w2upd).2.cache =
      w3cache.filter (fun e => !svcSweep "c1" e.1) ∧
    (deleteCourse ⟨w3store, w3cache, true⟩ "c1").2.cache =
      w3cache.filter (fun e => !svcSweep "c1" e.1) ∧
    (putCourseRoute ⟨w3store, w3cache, true⟩ "c1" w2upd).2.cache =
      w3cache.filter (fun e => !routeSweep "c1" e.1) ∧
    (deleteCourseRoute ⟨w3store, w3cache, true⟩ "c1").2.cache =
      w3cache.filter (fun e => !routeSweep "c1" e.1) := by
  have h1 : (updateCourse ⟨w3store, w3cache, true⟩ "c1" w2upd).1 =
      some (mkCourse "c1" 3) := by decide
  have h2 : (deleteCourse ⟨w3store, w3cache, true⟩ "c1").1 = true := by decide
  have h3 : (putCourseRoute ⟨w3store, w3cache, true⟩ "c1" w2upd).1 =
      some (mkCourse "c1" 3) := by decide
  have h4 : (deleteCourseRoute ⟨w3store, w3cache, true⟩ "c1").1 =
      some (mkCourse "c1" 4) := by decide
  exact write_invalidation_exact_sets (Prod.ext h1 rfl) (Prod.ext h2 rfl)
    (Prod.ext h3 rfl) (Prod.ext h4 rfl)

/-- C4: bulk inserting a batch of which some records duplicate stored
business keys and the rest are fresh (with pairwise distinct keys, which is
what makes them all insertable) reports `insertedCount` equal to the number
of fresh records, `duplicateCount` equal to the number of duplicates, lists
exactly the duplicates' write errors, and leaves every fresh record
retrievable from the store by its business key — the batch partially
succeeds rather than failing whole. -/
theorem bulk_insert_reports_duplicates {st : Store} {cache : Cache}
    {up : Bool} {cs : List Course}
    (hnd : ((newRecords st cs).map Course.course_id).Nodup) :
    (bulkInsertCourses ⟨st, cache, up⟩ cs).1.insertedCount =
      (newRecords st cs).length ∧
    (bulkInsertCourses ⟨st, cache, up⟩ cs).1.duplicateCount =
      (dupRecords st cs).length ∧
    (bulkInsertCourses ⟨st, cache, up⟩ cs).1.errors =
      (dupRecords st cs).map Course.course_id ∧
    ∀ c ∈ newRecords st cs,
      findOne (bulkInsertCourses ⟨st, cache, up⟩ cs).2.store c.course_id =
        some c := by
  have hlen : (newRecords st cs).length + (dupRecords st cs).length =
      cs.length := by
    simpa [newRecords, dupRecords] using filter_split_length st cs
  have hrun := insertMany_eq cs st hnd
  have hstore : (bulkInsertCourses ⟨st, cache, up⟩ cs).2.store =
      st ++ newRecords st cs := by
    simp only [bulkInsertCourses, hrun, invalidate_store]
  refine ⟨?_, ?_, ?_, ?_⟩
  · by_cases hd : dupRecords st cs = []
    · simp [bulkInsertCourses, hrun, hd]
    · have : ¬ ((dupRecords st cs).map Course.course_id).isEmpty = true := by
        simp [List.isEmpty_iff, hd]
      simp only [bulkInsertCourses, hrun, this, Bool.false_eq_true, reduceIte]
      simp only [List.length_map]
      omega
  · by_cases hd : dupRecords st cs = []
    · simp [bulkInsertCourses, hrun, hd]
    · have : ¬ ((dupRecords st cs).map Course.course_id).isEmpty = true := by
        simp [List.isEmpty_iff, hd]
      simp [bulkInsertCourses, hrun, this]
  · by_cases hd : dupRecords st cs = []
    · simp [bulkInsertCourses, hrun, hd]
    · have : ¬ ((dupRecords st cs).map Course.course_id).isEmpty = true := by
        simp [List.isEmpty_iff, hd]
      simp [bulkInsertCourses, hrun, this]
  · intro c hc
    rw [hstore]
    have habs : storeHasId st c.course_id = false := by
      have := (List.mem_filter.mp hc).2
      simpa using this
    exact findOne_append_new hc hnd habs

/-- Witness for C4: a three-record batch with one duplicate. -/
theorem bulk_insert_reports_duplicates_witness :
    (bulkInsertCourses ⟨w4store, [], true⟩ w4batch).1.insertedCount =
      (newRecords w4store w4batch).length ∧
    (bulkInsertCourses ⟨w4store, [], true⟩ w4batch).1.duplicateCount =
      (dupRecords w4store w4batch).length ∧
    (bulkInsertCourses ⟨w4store, [], true⟩ w4batch).1.errors =
      (dupRecords w4store w4batch).map Course.course_id ∧
    ∀ c ∈ newRecords w4store w4batch,
      findOne (bulkInsertCourses ⟨w4store, [], true⟩ w4batch).2.store
        c.course_id = some c :=
  bulk_insert_reports_duplicates (by decide)

/-- C5: on a business key absent from the store, `updateCourse` returns
`null` and `deleteCourse` returns `false`, and in both cases the whole
system state — cache included — is left untouched: no `course:{id}` delete
and no `search:*`/`courses:*`/`course:stats` sweep runs, because
invalidation is guarded by a successful store mutation. -/
theorem write_missing_id_noop {s : SysState} {id : String} (u : CourseUpdate)
    (h : findOne s.store id = none) :
    updateCourse s id u = (none, s) ∧ deleteCourse s id = (false, s) := by
  constructor
  · simp [updateCourse, updStore_not_found u h]
  · simp [deleteCourse, delStore_not_found h]

/-- Witness for C5 at a concrete populated state and an absent key. -/
theorem write_missing_id_noop_witness :
    updateCourse ⟨w4store, [], true⟩ "zzz" w2upd =
      (none, ⟨w4store, [], true⟩) ∧
    deleteCourse ⟨w4store, [], true⟩ "zzz" = (false, ⟨w4store, [], true⟩) :=
  write_missing_id_noop w2upd (by decide)

/-- C6: with the cache connection down, every gateway operation catches the
failure and returns the negative/empty result — `null` for `get`, `false`
for `set`, `del`, `exists` and `flushPattern` — without changing state; and
every service read path (`getCourseById`, `searchCourses`, `getCourseStats`,
and the listing route) returns the same payload as a cache miss answered
from the store (an up connection over an empty cache). -/
theorem cache_failure_equals_miss {st : Store} {cache : Cache} (k : String)
    (v : Payload) (ttl : Nat) (id : String) (o : JSObj)
    (catP slP : Option String) (p l : ℚ) :
    rGet ⟨st, cache, false⟩ k = none ∧
    rSet ⟨st, cache, false⟩ k v ttl = (⟨st, cache, false⟩, false) ∧
    rDel ⟨st, cache, false⟩ k = (⟨st, cache, false⟩, false) ∧
    rExists ⟨st, cache, false⟩ k = false ∧
    rFlush ⟨st, cache, false⟩ k = (⟨st, cache, false⟩, false) ∧
    (getCourseById ⟨st, cache, false⟩ id).1 =
      (getCourseById ⟨st, [], true⟩ id).1 ∧
    (searchCourses ⟨st, cache, false⟩ o).1 =
      (searchCourses ⟨st, [], true⟩ o).1 ∧
    (getCourseStats ⟨st, cache, false⟩).1 = (getCourseStats ⟨st, [], true⟩).1 ∧
    (listCoursesRoute ⟨st, cache, false⟩ catP slP p l).1 =
      (listCoursesRoute ⟨st, [], true⟩ catP slP p l).1 := by
  refine ⟨rfl, rfl, rfl, rfl, rfl, ?_, ?_, ?_, ?_⟩
  · cases hf : findOne st id <;>
      simp [getCourseById, rGet, cacheFind, hf]
  · simp [searchCourses, rGet, cacheFind]
  · simp [getCourseStats, rGet, cacheFind]
  · simp [listCoursesRoute, rGet, cacheFind]

/-- C7 counterexample: the claim says every read-path cache hit returns the
payload together with a `cached = true` marker (and a miss `cached = false`),
which would make a hit observably different from a miss.  For the stats,
get-by-id, and listing reads, a hit returns exactly the same value as a miss
answered from the store: these results carry no `cached` field at all, so no
marker distinguishes them. -/
theorem read_hit_indistinguishable_from_miss :
    (getCourseStats ⟨[], [("course:stats", Payload.stats c7stats, 900)],
        true⟩).1 =
      (getCourseStats ⟨[], [], true⟩).1 ∧
    (getCourseById ⟨[mkCourse "c1" 4],
        [("course:c1", Payload.course (mkCourse "c1" 4), 1800)], true⟩
        "c1").1 =
      (getCourseById ⟨[mkCourse "c1" 4], [], true⟩ "c1").1 ∧
    (listCoursesRoute ⟨[], [(listKey none none 1 20, Payload.listing w7list,
        300)], true⟩ none none 1 20).1 =
      (listCoursesRoute ⟨[], [], true⟩ none none 1 20).1 :=
  ⟨by decide, by decide, rfl⟩

/-- C7 as amended: on the read path with the cache up, `searchCourses`
returns the cached payload re-marked `cached = true` on a hit and the store
result marked `cached = false` on a miss, populating the cache with the
600-second search TTL; `getCourseById` returns the cached course unmarked on
a hit, and on a miss with a found course populates `course:{id}` with the
1800-second detail TTL; `getCourseStats` returns the cached stats unmarked
on a hit, and on a miss computes the aggregates and populates `course:stats`
for 900 seconds; the listing route returns the cached page unmarked on a
hit, and on a miss queries the store and populates its `courses:list:` key
for 300 seconds. -/
theorem read_path_cache_contract {st1 : Store} {cache1 : Cache} {o1 : JSObj}
    {r1 : SearchResultData}
    {st2 : Store} {cache2 : Cache} {o2 : JSObj}
    {st3 : Store} {cache3 : Cache} {id3 : String} {c3r : Course}
    {st4 : Store} {cache4 : Cache} {id4 : String} {c4r : Course}
    {st5 : Store} {cache5 : Cache} {v5 : StatsData}
    {st6 : Store} {cache6 : Cache}
    {st7 : Store} {cache7 : Cache} {catP7 slP7 : Option String} {p7 l7q : ℚ}
    {l7 : ListResultData}
    {st8 : Store} {cache8 : Cache} {catP8 slP8 : Option String} {p8 l8q : ℚ}
    (h1 : cacheFind cache1 (searchKey o1) = some (Payload.search r1))
    (h2 : cacheFind cache2 (searchKey o2) = none)
    (h3 : cacheFind cache3 ("course:" ++ id3) = some (Payload.course c3r))
    (h4 : cacheFind cache4 ("course:" ++ id4) = none)
    (h4f : findOne st4 id4 = some c4r)
    (h5 : cacheFind cache5 "course:stats" = some (Payload.stats v5))
    (h6 : cacheFind cache6 "course:stats" = none)
    (h7 : cacheFind cache7 (listKey catP7 slP7 p7 l7q) =
      some (Payload.listing l7))
    (h8 : cacheFind cache8 (listKey catP8 slP8 p8 l8q) = none) :
    searchCourses ⟨st1, cache1, true⟩ o1 =
      ({ r1 with cached := true }, ⟨st1, cache1, true⟩) ∧
    searchCourses ⟨st2, cache2, true⟩ o2 =
      (runSearch st2 o2,
        ⟨st2, cacheSet cache2 (searchKey o2)
          (Payload.search (runSearch st2 o2)) 600, true⟩) ∧
    (runSearch st2 o2).cached = false ∧
    getCourseById ⟨st3, cache3, true⟩ id3 = (some c3r, ⟨st3, cache3, true⟩) ∧
    getCourseById ⟨st4, cache4, true⟩ id4 =
      (some c4r, ⟨st4, cacheSet cache4 ("course:" ++ id4)
        (Payload.course c4r) 1800, true⟩) ∧
    getCourseStats ⟨st5, cache5, true⟩ = (v5, ⟨st5, cache5, true⟩) ∧
    getCourseStats ⟨st6, cache6, true⟩ =
      (computeStats st6, ⟨st6, cacheSet cache6 "course:stats"
        (Payload.stats (computeStats st6)) 900, true⟩) ∧
    listCoursesRoute ⟨st7, cache7, true⟩ catP7 slP7 p7 l7q =
      (l7, ⟨st7, cache7, true⟩) ∧
    listCoursesRoute ⟨st8, cache8, true⟩ catP8 slP8 p8 l8q =
      (runList st8 catP8 slP8 p8 l8q,
        ⟨st8, cacheSet cache8 (listKey catP8 slP8 p8 l8q)
          (Payload.listing (runList st8 catP8 slP8 p8 l8q)) 300, true⟩) := by
  refine ⟨?_, ?_, rfl, ?_, ?_, ?_, ?_, ?_, ?_⟩
  · simp [searchCourses, rGet, h1]
  · simp [searchCourses, rGet, h2, rSet, CACHE_TTL_SEARCH_RESULTS]
  · simp [getCourseById, rGet, h3]
  · simp [getCourseById, rGet, h4, h4f, rSet, CACHE_TTL_COURSE_DETAIL]
  · simp [getCourseStats, rGet, h5]
  · simp [getCourseStats, rGet, h6, rSet]
  · simp [listCoursesRoute, rGet, h7]
  · simp [listCoursesRoute, rGet, h8, rSet]

/-- Witness for C7: one concrete hit and one concrete miss per read path. -/
theorem read_path_cache_contract_witness :
    searchCourses ⟨[], [(searchKey descQueryFirst, Payload.search w7result,
        600)], true⟩ descQueryFirst =
      ({ w7result with cached := true },
        ⟨[], [(searchKey descQueryFirst, Payload.search w7result, 600)],
          true⟩) ∧
    searchCourses ⟨[], [], true⟩ descPageFirst =
      (runSearch [] descPageFirst,
        ⟨[], cacheSet [] (searchKey descPageFirst)
          (Payload.search (runSearch [] descPageFirst)) 600, true⟩) ∧
    (runSearch [] descPageFirst).cached = false ∧
    getCourseById ⟨[], [("course:c1", Payload.course (mkCourse "c1" 4), 1800)],
        true⟩ "c1" =
      (some (mkCourse "c1" 4),
        ⟨[], [("course:c1", Payload.course (mkCourse "c1" 4), 1800)], true⟩) ∧
    getCourseById ⟨[mkCourse "c2" 4], [], true⟩ "c2" =
      (some (mkCourse "c2" 4),
        ⟨[mkCourse "c2" 4], cacheSet [] ("course:" ++ "c2")
          (Payload.course (mkCourse "c2" 4)) 1800, true⟩) ∧
    getCourseStats ⟨[], [("course:stats", Payload.stats c7stats, 900)],
        true⟩ = (c7stats,
          ⟨[], [("course:stats", Payload.stats c7stats, 900)], true⟩) ∧
    getCourseStats ⟨[mkCourse "c3" 2], [], true⟩ =
      (computeStats [mkCourse "c3" 2],
        ⟨[mkCourse "c3" 2], cacheSet [] "course:stats"
          (Payload.stats (computeStats [mkCourse "c3" 2])) 900, true⟩) ∧
    listCoursesRoute ⟨[], [(listKey none none 1 20, Payload.listing w7list,
        300)], true⟩ none none 1 20 =
      (w7list, ⟨[], [(listKey none none 1 20, Payload.listing w7list, 300)],
        true⟩) ∧
    listCoursesRoute ⟨[mkCourse "c4" 1], [], true⟩ none none 1 20 =
      (runList [mkCourse "c4" 1] none none 1 20,
        ⟨[mkCourse "c4" 1], cacheSet [] (listKey none none 1 20)
          (Payload.listing (runList [mkCourse "c4" 1] none none 1 20)) 300,
          true⟩) :=
  read_path_cache_contract (by decide) rfl (by decide) rfl (by decide)
    (by decide) rfl rfl rfl

/-- C8: a record whose rating lies strictly below 0 or strictly above 5 is
rejected by both validators — the zod create schema fails, and the CSV
validator reports the rating-range violation — while ratings of exactly 0
and exactly 5 pass the rating rule of both. -/
theorem rating_bounds_validation {c1 c2 : Course} {d1 d2 : CSVCourseData}
    (hc1 : c1.rating < 0 ∨ 5 < c1.rating)
    (hc2 : c2.rating = 0 ∨ c2.rating = 5)
    (hd1 : d1.rating < 0 ∨ 5 < d1.rating)
    (hd2 : d2.rating = 0 ∨ d2.rating = 5) :
    courseCreateValid c1 = false ∧
    zodRatingOk c2.rating = true ∧
    ratingRangeMsg ∈ validateCourseData d1 ∧
    ratingRangeMsg ∉ validateCourseData d2 := by
  refine ⟨?_, ?_, ?_, ?_⟩
  · have hz : zodRatingOk c1.rating = false := by
      rcases hc1 with h | h
      · simp [zodRatingOk, not_le.mpr h]
      · simp [zodRatingOk, not_le.mpr h]
    simp [courseCreateValid, hz]
  · rcases hc2 with h | h <;> rw [h] <;> decide
  · rw [ratingMsg_mem_iff]
    rcases hd1 with h | h
    · exact ⟨ne_of_lt h, Or.inl h⟩
    · exact ⟨ne_of_gt (lt_trans (by norm_num) h), Or.inr h⟩
  · rw [ratingMsg_mem_iff]
    rcases hd2 with h | h <;> rw [h] <;> decide

/-- Witness for C8 at the claim's own boundary inputs −0.1, 0, 5.1 and 5. -/
theorem rating_bounds_validation_witness :
    courseCreateValid (mkCourse "r" qNeg01) = false ∧
    zodRatingOk (mkCourse "r" 0).rating = true ∧
    ratingRangeMsg ∈ validateCourseData (w8csv qPos51) ∧
    ratingRangeMsg ∉ validateCourseData (w8csv 5) :=
  rating_bounds_validation (Or.inl (by decide)) (Or.inl (by decide))
    (Or.inr (by decide)) (Or.inr (by decide))

/-- C9: the TTLs written on read misses are exactly tiered by operation:
600 seconds for a search page, 1800 seconds for a course detail, 300 seconds
for a plain listing, 900 seconds for the stats aggregate — matching the
service's `CACHE_TTL` constants and the route literals. -/
theorem read_miss_ttl_tiers {st1 : Store} {cache1 : Cache} {o1 : JSObj}
    {st2 : Store} {cache2 : Cache} {id2 : String} {c2r : Course}
    {st3 : Store} {cache3 : Cache} {catP slP : Option String} {p l : ℚ}
    {st4 : Store} {cache4 : Cache}
    (h1 : cacheFind cache1 (searchKey o1) = none)
    (h2 : cacheFind cache2 ("course:" ++ id2) = none)
    (h2f : findOne st2 id2 = some c2r)
    (h3 : cacheFind cache3 (listKey catP slP p l) = none)
    (h4 : cacheFind cache4 "course:stats" = none) :
    cacheTtl ((searchCourses ⟨st1, cache1, true⟩ o1).2).cache (searchKey o1) =
      some 600 ∧
    cacheTtl ((getCourseById ⟨st2, cache2, true⟩ id2).2).cache
      ("course:" ++ id2) = some 1800 ∧
    cacheTtl ((listCoursesRoute ⟨st3, cache3, true⟩ catP slP p l).2).cache
      (listKey catP slP p l) = some 300 ∧
    cacheTtl ((getCourseStats ⟨st4, cache4, true⟩).2).cache "course:stats" =
      some 900 ∧
    CACHE_TTL_SEARCH_RESULTS = 600 ∧ CACHE_TTL_COURSE_DETAIL = 1800 ∧
    CACHE_TTL_COURSE_LIST = 300 := by
  refine ⟨?_, ?_, ?_, ?_, rfl, rfl, rfl⟩
  · simp [searchCourses, rGet, h1, rSet, cacheSet, cacheTtl,
      CACHE_TTL_SEARCH_RESULTS, List.find?]
  · simp [getCourseById, rGet, h2, h2f, rSet, cacheSet, cacheTtl,
      CACHE_TTL_COURSE_DETAIL, List.find?]
  · simp [listCoursesRoute, rGet, h3, rSet, cacheSet, cacheTtl, List.find?]
  · simp [getCourseStats, rGet, h4, rSet, cacheSet, cacheTtl, List.find?]

/-- Witness for C9: one concrete miss per read path. -/
theorem read_miss_ttl_tiers_witness :
    cacheTtl ((searchCourses ⟨[], [], true⟩ descQueryFirst).2).cache
      (searchKey descQueryFirst) = some 600 ∧
    cacheTtl ((getCourseById ⟨[mkCourse "c1" 4], [], true⟩ "c1").2).cache
      ("course:" ++ "c1") = some 1800 ∧
    cacheTtl ((listCoursesRoute ⟨[], [], true⟩ none none 1 20).2).cache
      (listKey none none 1 20) = some 300 ∧
    cacheTtl ((getCourseStats ⟨[], [], true⟩).2).cache "course:stats" =
      some 900 ∧
    CACHE_TTL_SEARCH_RESULTS = 600 ∧ CACHE_TTL_COURSE_DETAIL = 1800 ∧
    CACHE_TTL_COURSE_LIST = 300 :=
  read_miss_ttl_tiers rfl rfl
    (show findOne [mkCourse "c1" 4] "c1" = some (mkCourse "c1" 4) by decide)
    rfl rfl

/-- C10: when the business key is absent from the store, `getCourseById`
leaves the whole state — in particular the cache — unchanged (only found
courses are cached, so a not-found result is never written), and on a cache
miss it returns `null`; repeated lookups of the absent key therefore keep
going to the store. -/
theorem get_missing_id_writes_nothing {s : SysState} {id : String}
    (h : findOne s.store id = none) :
    (getCourseById s id).2 = s ∧
    (rGet s ("course:" ++ id) = none → (getCourseById s id).1 = none) := by
  cases hg : rGet s ("course:" ++ id) with
  | none =>
    constructor
    · simp [getCourseById, hg, h]
    · intro _
      simp [getCourseById, hg, h]
  | some pl =>
    cases pl with
    | course c =>
      exact ⟨by simp [getCourseById, hg], fun hx => by simp at hx⟩
    | search r =>
      exact ⟨by simp [getCourseById, hg, h], fun hx => by simp at hx⟩
    | stats v =>
      exact ⟨by simp [getCourseById, hg, h], fun hx => by simp at hx⟩
    | listing lr =>
      exact ⟨by simp [getCourseById, hg, h], fun hx => by simp at hx⟩

/-- Witness for C10 at a populated store and an absent key. -/
theorem get_missing_id_writes_nothing_witness :
    (getCourseById ⟨w4store, [], true⟩ "zzz").2 = ⟨w4store, [], true⟩ ∧
    (getCourseById ⟨w4store, [], true⟩ "zzz").1 = none :=
  ⟨(get_missing_id_writes_nothing (by decide)).1,
    (get_missing_id_writes_nothing (by decide)).2 rfl⟩
